import Mathlib

/-!
Verification development for the LuaLDAP client engine (src/lualdap.c).

The C file is a Lua/C binding around an external LDAP transport
(OpenLDAP).  The shallow embedding below translates, function by
function, the parts of the C source that the checked properties are
about:

  * the attribute change-set builder (`A_init`, `A_setbval`, `A_setval`,
    `A_nullval`, `A_tab2val`, `A_setmod`, `A_tab2mod`, `A_lastattr`);
  * the operation entry points (`lualdap_add`, `lualdap_modify`,
    `lualdap_delete`, `lualdap_compare`, `lualdap_rename`,
    `lualdap_search`) and their argument validation;
  * the pending-operation result decoder (`result_message`);
  * the search-result stream (`next_message`, `lualdap_search_close`,
    `string2scope`, `get_attrs_param`).

Lua values reachable by these functions are modelled by `LuaVal`; the
relevant Lua C API predicates (`lua_isstring`, `lua_isnumber`,
`lua_tostring`, ...) are modelled after the reference manual (note that
`lua_isstring` is also true of numbers, and `lua_tostring` coerces a
number to its decimal text).  Lua's string-to-number reading is modelled
for decimal integers, which is all the development relies on.  Fatal
errors raised with `luaL_error`/`luaL_argcheck` become `Except.error`
(or an explicit `fatal` outcome); soft `(nil, message)` returns become a
`nilMsg` outcome.  Strings model NUL-free C strings.  Calls into the
external transport are modelled by passing the transport's answer as an
explicit argument; the transport functions themselves are out of scope.
-/

/-- Upper bound on modification entries per operation (`LUALDAP_MAX_ATTRS`). -/
def LUALDAP_MAX_ATTRS : Nat := 100

/-- Size of the array of pointers to value structures (`2 * LUALDAP_MAX_ATTRS`). -/
def LUALDAP_ARRAY_VALUES_SIZE : Nat := 2 * LUALDAP_MAX_ATTRS

/-- Maximum number of `BerValue` structures (`LUALDAP_ARRAY_VALUES_SIZE / 2`). -/
def LUALDAP_MAX_VALUES : Nat := LUALDAP_ARRAY_VALUES_SIZE / 2

/-- `LDAP_MOD_ADD | LDAP_MOD_BVALUES` (0x00 | 0x80). -/
def LUALDAP_MOD_ADD : Nat := 128

/-- `LDAP_MOD_DELETE | LDAP_MOD_BVALUES` (0x01 | 0x80). -/
def LUALDAP_MOD_DEL : Nat := 129

/-- `LDAP_MOD_REPLACE | LDAP_MOD_BVALUES` (0x02 | 0x80). -/
def LUALDAP_MOD_REP : Nat := 130

/-- `LUALDAP_NO_OP`. -/
def LUALDAP_NO_OP : Nat := 0

/-- LDAP result code `LDAP_SUCCESS` (0x00). -/
def LDAP_SUCCESS : Nat := 0

/-- LDAP result code `LDAP_COMPARE_FALSE` (0x05). -/
def LDAP_COMPARE_FALSE : Nat := 5

/-- LDAP result code `LDAP_COMPARE_TRUE` (0x06). -/
def LDAP_COMPARE_TRUE : Nat := 6

/-- Message type `LDAP_RES_SEARCH_ENTRY` (0x64). -/
def LDAP_RES_SEARCH_ENTRY : Int := 100

/-- Message type `LDAP_RES_SEARCH_RESULT` (0x65). -/
def LDAP_RES_SEARCH_RESULT : Int := 101

/-- Message type `LDAP_RES_SEARCH_REFERENCE` (0x73). -/
def LDAP_RES_SEARCH_REFERENCE : Int := 115

/-- Search scope `LDAP_SCOPE_DEFAULT` (-1). -/
def LDAP_SCOPE_DEFAULT : Int := -1

/-- Search scope `LDAP_SCOPE_BASE` (0). -/
def LDAP_SCOPE_BASE : Int := 0

/-- Search scope `LDAP_SCOPE_ONELEVEL` (1). -/
def LDAP_SCOPE_ONELEVEL : Int := 1

/-- Search scope `LDAP_SCOPE_SUBTREE` (2). -/
def LDAP_SCOPE_SUBTREE : Int := 2

/-- `LDAP_NO_LIMIT` (0). -/
def LDAP_NO_LIMIT : Int := 0

/-- A Lua value as visible to the binding: nil, boolean, number, string,
or a table (tables used as sequences are modelled by their array part;
tables used as maps are modelled separately by association lists of
key/value pairs in `lua_next` iteration order). -/
inductive LuaVal where
  | nil
  | boolean (b : Bool)
  | num (n : Int)
  | str (s : String)
  | tbl (arr : List LuaVal)

/-- `lua_isstring`: true for a string, and also for a number (which is
always convertible to a string). -/
def lua_isstring : LuaVal → Bool
  | .str _ => true
  | .num _ => true
  | _ => false

/-- Decimal reading of a digit list. -/
def digitsToNat : List Char → Option Nat
  | [] => none
  | l =>
    if l.all (fun c => '0' ≤ c && c ≤ '9') then
      some (l.foldl (fun acc c => acc * 10 + (c.toNat - 48)) 0)
    else none

/-- Lua's string-to-number reading, restricted to decimal integers
(enough for every use in this development). -/
def luaNumOfString (s : String) : Option Int :=
  match s.data with
  | '-' :: cs => (digitsToNat cs).map (fun n => -(n : Int))
  | cs => (digitsToNat cs).map (fun n => (n : Int))

/-- `lua_isnumber`: true for a number, and for a string convertible to a
number. -/
def lua_isnumber : LuaVal → Bool
  | .num _ => true
  | .str s => (luaNumOfString s).isSome
  | _ => false

/-- `lua_tostring`: yields the string for a string, the decimal text for
a number, and NULL (here `none`) otherwise. -/
def lua_tostring : LuaVal → Option String
  | .str s => some s
  | .num n => some (toString n)
  | _ => none

/-- `lua_tostring` at a position already checked with `lua_isstring`. -/
def lua_tostr (v : LuaVal) : String := (lua_tostring v).getD ("")

/-- `lua_typename` of a value's type. -/
def lua_typename : LuaVal → String
  | .nil => "nil"
  | .boolean _ => "boolean"
  | .num _ => "number"
  | .str _ => "string"
  | .tbl _ => "table"

/-- Message raised by `value_error`: in the C source,
`"LuaLDAP: invalid value of attribute `%s' (%s)"` with the attribute
name and the Lua type name. -/
def value_error_msg (name : String) (v : LuaVal) : String :=
  "LuaLDAP: invalid value of attribute " ++ name ++ " (" ++ lua_typename v ++ ")"

/-- One `LDAPMod` as filled in by `A_setmod`: operation code, attribute
name, and the NULL-terminated value list (`none` models a NULL
`mod_bvalues`, i.e. no values). -/
structure LDAPMod where
  mod_op : Nat
  mod_type : String
  mod_bvalues : Option (List String)
deriving Repr, DecidableEq

/-- The `attrs_data` structure.  The C arrays `attrs`, `mods`, `values`
and `bvals` with their index counters `ai`, `vi`, `bi` are modelled by
the counters plus the list of completed modifications (the contents of
the value arrays are reflected in each modification's value list). -/
structure attrs_data where
  ai : Nat
  mods : List LDAPMod
  vi : Nat
  bi : Nat
deriving Repr, DecidableEq

/-- `A_init`: zero all counters. -/
def A_init : attrs_data := ⟨0, [], 0, 0⟩

/-- `A_setbval`: store one string value, incrementing the `bvals`
counter; fails with `"too many values"` at capacity and with a value
error on a non-string (and non-number) value. -/
def A_setbval (a : attrs_data) (v : LuaVal) (n : String) : Except String (String × attrs_data) :=
  if a.bi ≥ LUALDAP_MAX_VALUES then .error ("LuaLDAP: too many values")
  else if lua_isstring v = false then .error (value_error_msg n v)
  else .ok (lua_tostr v, { a with bi := a.bi + 1 })

/-- `A_setval`: store a pointer slot for one value. -/
def A_setval (a : attrs_data) (v : LuaVal) (n : String) : Except String (String × attrs_data) :=
  if a.vi ≥ LUALDAP_ARRAY_VALUES_SIZE then .error ("LuaLDAP: too many values")
  else
    match A_setbval a v n with
    | .error e => .error e
    | .ok (s, a1) => .ok (s, { a1 with vi := a1.vi + 1 })

/-- `A_nullval`: store the terminating NULL pointer slot. -/
def A_nullval (a : attrs_data) : Except String attrs_data :=
  if a.vi ≥ LUALDAP_ARRAY_VALUES_SIZE then .error ("LuaLDAP: too many values")
  else .ok { a with vi := a.vi + 1 }

/-- The loop of `A_tab2val`'s table case: `A_setval` on each element of
the sequence, in order. -/
def A_setvals (a : attrs_data) (l : List LuaVal) (n : String) : Except String (List String × attrs_data) :=
  match l with
  | [] => .ok ([], a)
  | v :: vs =>
    match A_setval a v n with
    | .error e => .error e
    | .ok (s, a1) =>
      match A_setvals a1 vs n with
      | .error e => .error e
      | .ok (ss, a2) => .ok (s :: ss, a2)

/-- `A_tab2val`: `true` means no values (a NULL value list), a
string/number means one value, a table means the sequence of its
elements; anything else is a fatal value error.  Returns the value list
recorded in the modification. -/
def A_tab2val (a : attrs_data) (v : LuaVal) (name : String) : Except String (Option (List String) × attrs_data) :=
  match v with
  | .boolean true => .ok (none, a)
  | .tbl l =>
    match A_setvals a l name with
    | .error e => .error e
    | .ok (ss, a1) =>
      match A_nullval a1 with
      | .error e => .error e
      | .ok a2 => .ok (some ss, a2)
  | v' =>
    if lua_isstring v' then
      match A_setval a v' name with
      | .error e => .error e
      | .ok (s, a1) =>
        match A_nullval a1 with
        | .error e => .error e
        | .ok a2 => .ok (some [s], a2)
    else .error (value_error_msg name v')

/-- `A_setmod`: append one modification; fails with
`"too many attributes"` when the `ai` counter reaches the capacity. -/
def A_setmod (a : attrs_data) (op : Nat) (name : String) (v : LuaVal) : Except String attrs_data :=
  if a.ai ≥ LUALDAP_MAX_ATTRS then .error ("LuaLDAP: too many attributes")
  else
    match A_tab2val a v name with
    | .error e => .error e
    | .ok (bv, a1) =>
      .ok { a1 with mods := a1.mods ++ [⟨op, name, bv⟩], ai := a1.ai + 1 }

/-- A map-like table in `lua_next` iteration order. -/
abbrev LuaTable := List (LuaVal × LuaVal)

/-- The key filter of `A_tab2mod`: the attribute key must be a string
and not a number. -/
def is_attr_key (k : LuaVal) : Bool := !lua_isnumber k && lua_isstring k

/-- `A_tab2mod`: iterate a table with `lua_next`, calling `A_setmod` on
every entry whose key is a string and not a number; other entries are
silently skipped. -/
def A_tab2mod (a : attrs_data) (tab : LuaTable) (op : Nat) : Except String attrs_data :=
  match tab with
  | [] => .ok a
  | (k, v) :: rest =>
    if is_attr_key k then
      match A_setmod a op (lua_tostr k) v with
      | .error e => .error e
      | .ok a1 => A_tab2mod a1 rest op
    else A_tab2mod a rest op

/-- `A_lastattr`: store the terminating NULL in the `attrs` array; fails
with `"too many attributes"` when the `ai` counter is at capacity. -/
def A_lastattr (a : attrs_data) : Except String attrs_data :=
  if a.ai ≥ LUALDAP_MAX_ATTRS then .error ("LuaLDAP: too many attributes")
  else .ok { a with ai := a.ai + 1 }

/-- `op2code`: map the leading character of the sigil string to a
modification code; NULL or an unrecognized character yields
`LUALDAP_NO_OP`. -/
def op2code : Option String → Nat
  | none => LUALDAP_NO_OP
  | some s =>
    match s.data with
    | [] => LUALDAP_NO_OP
    | c :: _ =>
      if c = '+' then LUALDAP_MOD_ADD
      else if c = '-' then LUALDAP_MOD_DEL
      else if c = '=' then LUALDAP_MOD_REP
      else LUALDAP_NO_OP

/-- The `conn_data` structure: protocol version and the LDAP handle
(`none` models a NULL `ld`, i.e. a closed connection). -/
structure conn_data where
  version : Int
  ld : Option Nat
deriving Repr, DecidableEq

/-- `getconnection`: check the userdata's handle, raising
`"LDAP connection is closed"` (via `luaL_argcheck`) when NULL. -/
def getconnection (c : conn_data) : Except String conn_data :=
  if c.ld.isSome then .ok c
  else .error ("LuaLDAP: LDAP connection is closed")

/-- The third argument of `add`: a table (with its `lua_next` entry
list) or any non-table value. -/
inductive AddArg where
  | table (entries : LuaTable)
  | nonTable (v : LuaVal)

/-- `lualdap_add` up to the transport call: validate the connection,
build the modification array (skipping the build when the third
argument is not a table), terminate it.  The resulting `attrs_data` is
what `ldap_add_ext` is invoked with. -/
def lualdap_add (c : conn_data) (dn : String) (arg : AddArg) : Except String attrs_data :=
  match getconnection c with
  | .error e => .error e
  | .ok _ =>
    let r := match arg with
      | .table t => A_tab2mod A_init t LUALDAP_MOD_ADD
      | .nonTable _ => .ok A_init
    match r with
    | .error e => .error e
    | .ok a1 => A_lastattr a1

/-- `lua_rawgeti (t, 1)`: the value stored at integer key 1, or nil. -/
def is_key1 : LuaVal → Bool
  | .num 1 => true
  | _ => false

/-- `lua_rawgeti (t, 1)` body: the value stored at integer key 1, or nil. -/
def rawget1 (g : LuaTable) : LuaVal :=
  ((g.find? (fun p => is_key1 p.1)).map (fun p => p.2)).getD .nil

/-- The sigil-to-code step of `lualdap_modify` for one group. -/
def group_op (g : LuaTable) : Nat := op2code (lua_tostring (rawget1 g))

/-- The `while (lua_istable (L, param))` loop of `lualdap_modify`,
followed by `A_lastattr`.  `param` is the stack position of the current
group (the loop starts at 3). -/
def modify_loop (a : attrs_data) (param : Nat) : List LuaTable → Except String attrs_data
  | [] => A_lastattr a
  | g :: gs =>
    if group_op g = LUALDAP_NO_OP then
      .error ("LuaLDAP: forgotten operation on argument #" ++ toString param)
    else
      match A_tab2mod a g (group_op g) with
      | .error e => .error e
      | .ok a1 => modify_loop a1 (param + 1) gs

/-- `lualdap_modify` up to the transport call: validate the connection,
then process each group (sigil lookup and `A_tab2mod`) and terminate
the array.  The resulting `attrs_data` is what `ldap_modify_ext` is
invoked with. -/
def lualdap_modify (c : conn_data) (dn : String) (groups : List LuaTable) : Except String attrs_data :=
  match getconnection c with
  | .error e => .error e
  | .ok _ => modify_loop A_init 3 groups

/-- `lualdap_delete` up to the transport call: only the connection check
precedes the submission; the value records the submitted DN. -/
def lualdap_delete (c : conn_data) (dn : String) : Except String String :=
  match getconnection c with
  | .error e => .error e
  | .ok _ => .ok dn

/-- `lualdap_compare` up to the transport call: only the connection
check precedes the submission; the value records the submitted
DN/attribute/value triple. -/
def lualdap_compare (c : conn_data) (dn attr value : String) : Except String (String × String × String) :=
  match getconnection c with
  | .error e => .error e
  | .ok _ => .ok (dn, attr, value)

/-- `lualdap_rename` up to the transport call: optional new parent
(NULL when absent) and optional delete-old-rdn flag defaulting to 0. -/
def lualdap_rename (c : conn_data) (dn rdn : String) (par : Option String) (del : Option Int) : Except String (String × String × Option String × Int) :=
  match getconnection c with
  | .error e => .error e
  | .ok _ => .ok (dn, rdn, par, del.getD 0)

/-- Outcome of a Lua C function of the future/fetch kind: a fatal error
raised with `luaL_error`/`luaL_argcheck`, a soft `(nil, message)` pair
produced by `faildirect`, or a pushed boolean result. -/
inductive LuaOutcome where
  | error (e : String)
  | nilMsg (m : String)
  | ok (b : Bool)
deriving Repr, DecidableEq

/-- The answer of `ldap_parse_result` for one received result message:
the parse return code, the protocol result code of the operation, the
matched DN, and the optional server diagnostic message. -/
structure ParsedResult where
  parse_rc : Nat
  err : Nat
  matcheddn : Option String
  diag : Option String
deriving Repr, DecidableEq

/-- The answer of `ldap_result` for a future's poll: 0 (timeout), a
negative return (local transport error), or a received message, here
carried already parsed. -/
inductive LdapPoll where
  | timeout
  | transportErr
  | msg (pr : ParsedResult)
deriving Repr, DecidableEq

/-- The parenthesized diagnostic suffix appended exactly when the server
supplied a message. -/
def diag_suffix : Option String → String
  | none => ""
  | some m => " (" ++ m ++ ")"

/-- `result_message`: the closure fetching one pending operation's
result.  `e2s` models `ldap_err2string` (an external table from code to
canonical text).  The second component records whether the received
message's resources were released (`ldap_msgfree`, or
`ldap_parse_result` with its freeit flag) before returning. -/
def result_message (e2s : Nat → String) (conn : conn_data) (poll : LdapPoll) : LuaOutcome × Bool :=
  if conn.ld.isNone then (.error ("LuaLDAP: LDAP connection is closed"), false)
  else
    match poll with
    | .timeout => (.nilMsg ("LuaLDAP: result timeout expired"), false)
    | .transportErr => (.nilMsg ("LuaLDAP: result error"), true)
    | .msg pr =>
      if pr.parse_rc ≠ LDAP_SUCCESS then (.nilMsg (e2s pr.parse_rc), true)
      else if pr.err = LDAP_SUCCESS ∨ pr.err = LDAP_COMPARE_TRUE then (.ok true, true)
      else if pr.err = LDAP_COMPARE_FALSE then (.ok false, true)
      else (.nilMsg ("LuaLDAP: " ++ e2s pr.err ++ diag_suffix pr.diag), true)

/-- `push_values`: decode one attribute's value list from a search
entry; no values become boolean `true`, one value the raw byte string,
several values the ordered sequence. -/
def push_values (vals : List String) : LuaVal :=
  match vals with
  | [] => .boolean true
  | [v] => .str v
  | vs => .tbl (vs.map .str)

/-- A raw search-response message: its `ldap_msgtype`, the entry's (or
reference's) distinguished name, and the entry's attributes with their
raw value lists, in `ldap_first_attribute`/`ldap_next_attribute`
order. -/
structure SearchMsg where
  msgtype : Int
  dn : String
  attribs : List (String × List String)
deriving Repr, DecidableEq

/-- `set_attribs`: the decoded attribute table of an entry. -/
def set_attribs (m : SearchMsg) : List (String × LuaVal) :=
  m.attribs.map (fun p => (p.1, push_values p.2))

/-- The `search_data` structure: the registry reference to the
connection (`none` models `LUA_NOREF`, i.e. a closed search) and the
message id. -/
structure search_data where
  conn : Option Nat
  msgid : Int
deriving Repr, DecidableEq

/-- Outcome of one `next_message` call.  `nullDeref` marks the path
that reaches `ldap_result` with a NULL connection handle — the external
library's precondition is violated there, which is undefined behavior,
not a defined result. -/
inductive NextOutcome where
  | fatal (m : String)
  | nilMsg (m : String)
  | done
  | entry (dn : String) (attrs : List (String × LuaVal))
  | referral (dn : String)
  | nullDeref

/-- `next_message`: fetch the next message of a search.  `ld_open`
tells whether the referenced connection's handle is still non-NULL
(the C code reads it without checking), `rc` is the `ldap_result`
return and `m` the received message.  The last component records
whether `ldap_msgfree` ran before returning. -/
def next_message (s : search_data) (ld_open : Bool) (rc : Int) (m : SearchMsg) :
    NextOutcome × search_data × Bool :=
  match s.conn with
  | none => (.fatal ("LuaLDAP: LDAP search is closed"), s, false)
  | some _ =>
    if ld_open = false then (.nullDeref, s, false)
    else if rc = 0 then (.nilMsg ("LuaLDAP: result timeout expired"), s, false)
    else if rc = -1 then (.nilMsg ("LuaLDAP: result error"), s, false)
    else if rc = LDAP_RES_SEARCH_RESULT then (.done, { s with conn := none }, true)
    else if m.msgtype = LDAP_RES_SEARCH_ENTRY then (.entry m.dn (set_attribs m), s, true)
    else if m.msgtype = LDAP_RES_SEARCH_REFERENCE then (.referral m.dn, s, true)
    else if m.msgtype = LDAP_RES_SEARCH_RESULT then (.done, { s with conn := none }, true)
    else (.fatal ("LuaLDAP: error on search result chain"), s, true)

/-- `lualdap_search_close`: release the connection reference; on an
already-closed search return no values (a silent no-op), otherwise
return the number 1. -/
def lualdap_search_close (s : search_data) : List LuaVal × search_data :=
  match s.conn with
  | none => ([], s)
  | some _ => ([.num 1], { s with conn := none })

/-- `string2scope`: map the scope option's string (NULL or empty give
the default scope) through its leading character; an unrecognized
character is a fatal error (in the C source the message quotes the
string: `"invalid search scope `%s'"`). -/
def string2scope (s : Option String) : Except String Int :=
  match s with
  | none => .ok LDAP_SCOPE_DEFAULT
  | some s =>
    match s.data with
    | [] => .ok LDAP_SCOPE_DEFAULT
    | c :: _ =>
      if c = 'b' then .ok LDAP_SCOPE_BASE
      else if c = 'o' then .ok LDAP_SCOPE_ONELEVEL
      else if c = 's' then .ok LDAP_SCOPE_SUBTREE
      else .error ("LuaLDAP: invalid search scope " ++ s)

/-- The element loop of `get_attrs_param`'s table case, with `i` the
1-based position of the current element. -/
def attrs_loop : List LuaVal → Nat → Except String (List String)
  | [], _ => .ok []
  | v :: vs, i =>
    if lua_isstring v then
      match attrs_loop vs (i + 1) with
      | .error e => .error e
      | .ok rest => .ok (lua_tostr v :: rest)
    else .error ("LuaLDAP: invalid value #" ++ toString i)

/-- `get_attrs_param`: fill in the requested-attribute array from the
`attrs` search option.  A string (or number) gives a one-element array;
a non-table gives the empty (all-attributes) array; a table is checked
against the capacity (`LUALDAP_MAX_ATTRS < n + 1` is fatal) and then
copied element by element, each element having to satisfy
`lua_isstring`.  The NULL terminator is modelled by the list's end. -/
def get_attrs_param (attrsField : LuaVal) : Except String (List String) :=
  if lua_isstring attrsField then .ok [lua_tostr attrsField]
  else
    match attrsField with
    | .tbl l =>
      if LUALDAP_MAX_ATTRS < l.length + 1 then .error ("LuaLDAP: too many arguments")
      else attrs_loop l 1
    | _ => .ok []

/-- `lua_getfield` on a table modelled as an association list. -/
def lua_getfield (t : List (String × LuaVal)) (name : String) : LuaVal :=
  ((t.find? (fun p => p.1 = name)).map (fun p => p.2)).getD .nil

/-- Message produced by `option_error`: in the C source,
`"invalid value on option `%s': %s expected, got %s"`. -/
def option_error_msg (name ty : String) (v : LuaVal) : String :=
  "LuaLDAP: invalid value on option " ++ name ++ ": " ++ ty ++ " expected, got " ++ lua_typename v

/-- `strtabparam`: read an optional string field of the search table. -/
def strtabparam (t : List (String × LuaVal)) (name : String) (dflt : Option String) : Except String (Option String) :=
  match lua_getfield t name with
  | .nil => .ok dflt
  | v => if lua_isstring v then .ok (some (lua_tostr v)) else .error (option_error_msg name ("string") v)

/-- `longtabparam`: read an optional integer field of the search table
(`lua_isnumber` also accepts numeric strings). -/
def longtabparam (t : List (String × LuaVal)) (name : String) (dflt : Int) : Except String Int :=
  match lua_getfield t name with
  | .nil => .ok dflt
  | v =>
    if lua_isnumber v then
      .ok (match v with
           | .num n => n
           | .str s => (luaNumOfString s).getD 0
           | _ => 0)
    else .error (option_error_msg name ("number") v)

/-- `booltabparam`: read an optional boolean field of the search table. -/
def booltabparam (t : List (String × LuaVal)) (name : String) (dflt : Bool) : Except String Bool :=
  match lua_getfield t name with
  | .nil => .ok dflt
  | .boolean b => .ok b
  | v => .error (option_error_msg name ("boolean") v)

/-- `get_timeout_param` on top of `numbertabparam`: a non-positive (or
absent) timeout means NULL, i.e. block indefinitely.  The C value is a
double of seconds; it is modelled at integer precision here. -/
def get_timeout_param (t : List (String × LuaVal)) : Except String (Option Int) :=
  match longtabparam t ("timeout") 0 with
  | .error e => .error e
  | .ok n => .ok (if n ≤ 0 then none else some n)

/-- The request handed to `ldap_search_ext`. -/
structure SearchRequest where
  base : Option String
  scope : Int
  filter : Option String
  attrs : List String
  attrsonly : Bool
  sizelimit : Int
  timeout : Option Int
deriving Repr, DecidableEq

/-- `lualdap_search` up to the transport call: validate the connection,
require a table argument, then read the attrs array, the flags, the
base, the filter, the scope and the limits in the C source's order
(so the first offending option is the one reported). -/
def lualdap_search (c : conn_data) (spec : Option (List (String × LuaVal))) : Except String SearchRequest :=
  match getconnection c with
  | .error e => .error e
  | .ok _ =>
    match spec with
    | none => .error ("LuaLDAP: no search specification")
    | some t =>
      match get_attrs_param (lua_getfield t ("attrs")) with
      | .error e => .error e
      | .ok attrs =>
        match booltabparam t ("attrsonly") false with
        | .error e => .error e
        | .ok attrsonly =>
          match strtabparam t ("base") none with
          | .error e => .error e
          | .ok base =>
            match strtabparam t ("filter") none with
            | .error e => .error e
            | .ok filter =>
              match strtabparam t ("scope") none with
              | .error e => .error e
              | .ok scopeStr =>
                match string2scope scopeStr with
                | .error e => .error e
                | .ok scope =>
                  match longtabparam t ("sizelimit") LDAP_NO_LIMIT with
                  | .error e => .error e
                  | .ok sizelimit =>
                    match get_timeout_param t with
                    | .error e => .error e
                    | .ok timeout =>
                      .ok ⟨base, scope, filter, attrs, attrsonly, sizelimit, timeout⟩

/-- A placeholder raw message for paths on which the received message is
never inspected. -/
def dummy_msg : SearchMsg := ⟨0, "", []⟩

/-- Numeral form of `LUALDAP_MAX_ATTRS`. -/
theorem LUALDAP_MAX_ATTRS_eq : LUALDAP_MAX_ATTRS = 100 := rfl

/-- Numeral form of `LUALDAP_ARRAY_VALUES_SIZE`. -/
theorem LUALDAP_ARRAY_VALUES_SIZE_eq : LUALDAP_ARRAY_VALUES_SIZE = 200 := rfl

/-- Numeral form of `LUALDAP_MAX_VALUES`. -/
theorem LUALDAP_MAX_VALUES_eq : LUALDAP_MAX_VALUES = 100 := rfl

/-- Number of `bvals` entries one attribute value consumes. -/
def bval_count : LuaVal → Nat
  | .boolean true => 0
  | .tbl l => l.length
  | v => if lua_isstring v then 1 else 0

/-- Number of `values` pointer slots one attribute value consumes
(one per value plus the NULL terminator slot). -/
def vslot_count : LuaVal → Nat
  | .boolean true => 0
  | .tbl l => l.length + 1
  | v => if lua_isstring v then 2 else 0

/-- The value list `A_tab2val` records for a well-formed value. -/
def encval : LuaVal → Option (List String)
  | .boolean true => none
  | .tbl l => some (l.map lua_tostr)
  | v => if lua_isstring v then some [lua_tostr v] else none

/-- Well-formed attribute value: `true`, a string/number, or a sequence
of strings/numbers — the shapes `A_tab2val` accepts. -/
def WFval : LuaVal → Bool
  | .boolean true => true
  | .tbl l => l.all lua_isstring
  | v => lua_isstring v

/-- The entries of a table that `A_tab2mod` does not skip. -/
def tab_attrs (g : LuaTable) : LuaTable := g.filter (fun p => is_attr_key p.1)

/-- Number of modification entries a table contributes. -/
def tab_nattrs (g : LuaTable) : Nat := (tab_attrs g).length

/-- Number of `bvals` entries a table contributes. -/
def tab_bvals (g : LuaTable) : Nat := ((tab_attrs g).map (fun p => bval_count p.2)).sum

/-- Number of `values` slots a table contributes. -/
def tab_vslots (g : LuaTable) : Nat := ((tab_attrs g).map (fun p => vslot_count p.2)).sum

/-- The modifications a table contributes under one operation code. -/
def tab_mods (g : LuaTable) (op : Nat) : List LDAPMod :=
  (tab_attrs g).map (fun p => ⟨op, lua_tostr p.1, encval p.2⟩)

/-- All of a table's kept values are well formed. -/
def tab_wf (g : LuaTable) : Bool := (tab_attrs g).all (fun p => WFval p.2)

/-- Total modification entries over the groups of one operation. -/
def groups_nattrs (gs : List LuaTable) : Nat := (gs.map tab_nattrs).sum

/-- Total `bvals` entries over the groups of one operation. -/
def groups_bvals (gs : List LuaTable) : Nat := (gs.map tab_bvals).sum

/-- Total `values` slots over the groups of one operation. -/
def groups_vslots (gs : List LuaTable) : Nat := (gs.map tab_vslots).sum

/-- The modifications built over the groups of one operation, each group
under its own sigil's code. -/
def groups_mods (gs : List LuaTable) : List LDAPMod :=
  (gs.map (fun g => tab_mods g (group_op g))).flatten

/-- `A_setbval` succeeds below capacity on a string value. -/
theorem A_setbval_ok (a : attrs_data) (v : LuaVal) (n : String)
    (hb : a.bi < LUALDAP_MAX_VALUES) (hs : lua_isstring v = true) :
    A_setbval a v n = .ok (lua_tostr v, { a with bi := a.bi + 1 }) := by
  have h1 : ¬ a.bi ≥ LUALDAP_MAX_VALUES := Nat.not_le.mpr hb
  simp [A_setbval, h1, hs]

/-- `A_setval` succeeds below both capacities on a string value. -/
theorem A_setval_ok (a : attrs_data) (v : LuaVal) (n : String)
    (hv : a.vi < LUALDAP_ARRAY_VALUES_SIZE) (hb : a.bi < LUALDAP_MAX_VALUES)
    (hs : lua_isstring v = true) :
    A_setval a v n = .ok (lua_tostr v, { a with vi := a.vi + 1, bi := a.bi + 1 }) := by
  have h1 : ¬ a.vi ≥ LUALDAP_ARRAY_VALUES_SIZE := Nat.not_le.mpr hv
  simp [A_setval, h1, A_setbval_ok a v n hb hs]

/-- `A_nullval` succeeds below the slot capacity. -/
theorem A_nullval_ok (a : attrs_data) (hv : a.vi < LUALDAP_ARRAY_VALUES_SIZE) :
    A_nullval a = .ok { a with vi := a.vi + 1 } := by
  have h1 : ¬ a.vi ≥ LUALDAP_ARRAY_VALUES_SIZE := Nat.not_le.mpr hv
  simp [A_nullval, h1]

/-- `A_setvals` over a list of string values below the capacities. -/
theorem A_setvals_ok (l : List LuaVal) (a : attrs_data) (n : String)
    (hall : ∀ e ∈ l, lua_isstring e = true)
    (hb : a.bi + l.length ≤ LUALDAP_MAX_VALUES)
    (hv : a.vi + l.length ≤ LUALDAP_ARRAY_VALUES_SIZE) :
    A_setvals a l n = .ok (l.map lua_tostr, { a with bi := a.bi + l.length, vi := a.vi + l.length }) := by
  induction l generalizing a with
  | nil => simp [A_setvals]
  | cons e es ih =>
    have hs : lua_isstring e = true := hall e (List.mem_cons_self e es)
    have hb1 : a.bi < LUALDAP_MAX_VALUES := by
      have := hb; simp [List.length_cons] at this; omega
    have hv1 : a.vi < LUALDAP_ARRAY_VALUES_SIZE := by
      have := hv; simp [List.length_cons] at this; omega
    have hrec := ih { a with vi := a.vi + 1, bi := a.bi + 1 }
      (fun e he => hall e (List.mem_cons_of_mem _ he))
      (by simp [List.length_cons] at hb ⊢; omega)
      (by simp [List.length_cons] at hv ⊢; omega)
    simp only [A_setvals, A_setval_ok a e n hv1 hb1 hs, hrec, List.map_cons]
    have e1 : a.bi + 1 + es.length = a.bi + (es.length + 1) := by omega
    have e2 : a.vi + 1 + es.length = a.vi + (es.length + 1) := by omega
    simp [List.length_cons, e1, e2]

/-- `tab_attrs` keeps an entry with an attribute key. -/
theorem tab_attrs_cons_pos (k v : LuaVal) (rest : LuaTable) (hk : is_attr_key k = true) :
    tab_attrs ((k, v) :: rest) = (k, v) :: tab_attrs rest := by
  simp [tab_attrs, List.filter_cons, hk]

/-- `tab_attrs` drops an entry whose key is not an attribute key. -/
theorem tab_attrs_cons_neg (k v : LuaVal) (rest : LuaTable) (hk : is_attr_key k = false) :
    tab_attrs ((k, v) :: rest) = tab_attrs rest := by
  simp [tab_attrs, List.filter_cons, hk]

/-- `A_tab2val` on a well-formed value below the capacities. -/
theorem A_tab2val_ok (a : attrs_data) (v : LuaVal) (n : String)
    (hwf : WFval v = true)
    (hb : a.bi + bval_count v ≤ LUALDAP_MAX_VALUES)
    (hv : a.vi + vslot_count v ≤ LUALDAP_ARRAY_VALUES_SIZE) :
    A_tab2val a v n = .ok (encval v, { a with bi := a.bi + bval_count v, vi := a.vi + vslot_count v }) := by
  match v with
  | .boolean true =>
    simp [A_tab2val, encval, bval_count, vslot_count]
  | .str s =>
    simp only [bval_count, vslot_count, lua_isstring, if_true] at hb hv
    have hb1 : a.bi < LUALDAP_MAX_VALUES := by omega
    have hv1 : a.vi < LUALDAP_ARRAY_VALUES_SIZE := by omega
    have h1 := A_setval_ok a (LuaVal.str s) n hv1 hb1 (by simp [lua_isstring])
    have h2 := A_nullval_ok { a with vi := a.vi + 1, bi := a.bi + 1 } (by simp; omega)
    simp [A_tab2val, lua_isstring, h1, h2, encval, bval_count, vslot_count]
  | .num m =>
    simp only [bval_count, vslot_count, lua_isstring, if_true] at hb hv
    have hb1 : a.bi < LUALDAP_MAX_VALUES := by omega
    have hv1 : a.vi < LUALDAP_ARRAY_VALUES_SIZE := by omega
    have h1 := A_setval_ok a (LuaVal.num m) n hv1 hb1 (by simp [lua_isstring])
    have h2 := A_nullval_ok { a with vi := a.vi + 1, bi := a.bi + 1 } (by simp; omega)
    simp [A_tab2val, lua_isstring, h1, h2, encval, bval_count, vslot_count]
  | .tbl l =>
    have hall : ∀ e ∈ l, lua_isstring e = true := by
      simpa [WFval, List.all_eq_true] using hwf
    have hb1 : a.bi + l.length ≤ LUALDAP_MAX_VALUES := by
      simpa [bval_count] using hb
    have hv1 : a.vi + l.length ≤ LUALDAP_ARRAY_VALUES_SIZE := by
      simp [vslot_count] at hv; omega
    have h2 := A_nullval_ok { a with bi := a.bi + l.length, vi := a.vi + l.length }
      (by simp [vslot_count] at hv ⊢; omega)
    simp [A_tab2val, A_setvals_ok l a n hall hb1 hv1, h2, encval, bval_count, vslot_count]
    omega

/-- `A_setmod` below the attribute capacity appends one modification. -/
theorem A_setmod_ok (a : attrs_data) (op : Nat) (n : String) (v : LuaVal)
    (ha : a.ai < LUALDAP_MAX_ATTRS) (hwf : WFval v = true)
    (hb : a.bi + bval_count v ≤ LUALDAP_MAX_VALUES)
    (hv : a.vi + vslot_count v ≤ LUALDAP_ARRAY_VALUES_SIZE) :
    A_setmod a op n v =
      .ok ⟨a.ai + 1, a.mods ++ [⟨op, n, encval v⟩], a.vi + vslot_count v, a.bi + bval_count v⟩ := by
  have h1 : ¬ a.ai ≥ LUALDAP_MAX_ATTRS := Nat.not_le.mpr ha
  simp [A_setmod, h1, A_tab2val_ok a v n hwf hb hv]

/-- `A_setmod` at the attribute capacity fails. -/
theorem A_setmod_overflow (a : attrs_data) (op : Nat) (n : String) (v : LuaVal)
    (ha : a.ai ≥ LUALDAP_MAX_ATTRS) :
    A_setmod a op n v = .error ("LuaLDAP: too many attributes") := by
  simp [A_setmod, ha]

/-- `A_tab2mod` over a whole table, when the kept entries are well
formed and all three capacities are respected. -/
theorem A_tab2mod_ok (g : LuaTable) (a : attrs_data) (op : Nat)
    (hwf : tab_wf g = true)
    (ha : a.ai + tab_nattrs g ≤ LUALDAP_MAX_ATTRS)
    (hb : a.bi + tab_bvals g ≤ LUALDAP_MAX_VALUES)
    (hv : a.vi + tab_vslots g ≤ LUALDAP_ARRAY_VALUES_SIZE) :
    A_tab2mod a g op =
      .ok ⟨a.ai + tab_nattrs g, a.mods ++ tab_mods g op, a.vi + tab_vslots g, a.bi + tab_bvals g⟩ := by
  induction g generalizing a with
  | nil => simp [A_tab2mod, tab_nattrs, tab_attrs, tab_bvals, tab_vslots, tab_mods]
  | cons p rest ih =>
    obtain ⟨k, v⟩ := p
    by_cases hk : is_attr_key k = true
    · simp only [tab_wf, tab_attrs_cons_pos k v rest hk, List.all_cons] at hwf
      simp only [tab_nattrs, tab_bvals, tab_vslots, tab_attrs_cons_pos k v rest hk,
        List.length_cons, List.map_cons, List.sum_cons] at ha hb hv
      obtain ⟨hwf1, hwf2⟩ := (Bool.and_eq_true _ _).mp hwf
      have hstep := A_setmod_ok a op (lua_tostr k) v (by omega) hwf1 (by omega) (by omega)
      have hrec := ih ⟨a.ai + 1, a.mods ++ [⟨op, lua_tostr k, encval v⟩],
          a.vi + vslot_count v, a.bi + bval_count v⟩
        (by simpa [tab_wf] using hwf2)
        (by simp [tab_nattrs]; omega) (by simp [tab_bvals]; omega) (by simp [tab_vslots]; omega)
      simp only [A_tab2mod, hk, if_true, hstep, hrec]
      simp [tab_nattrs, tab_bvals, tab_vslots, tab_mods, tab_attrs_cons_pos k v rest hk]
      constructor
      · omega
      constructor
      · omega
      omega
    · have hk' : is_attr_key k = false := by simpa using hk
      simp only [tab_wf, tab_attrs_cons_neg k v rest hk'] at hwf
      simp only [tab_nattrs, tab_bvals, tab_vslots, tab_attrs_cons_neg k v rest hk'] at ha hb hv
      simp only [A_tab2mod, hk', Bool.false_eq_true, if_false]
      rw [ih a (by simpa [tab_wf] using hwf) ha hb hv]
      simp [tab_nattrs, tab_bvals, tab_vslots, tab_mods, tab_attrs_cons_neg k v rest hk']

/-- `A_tab2mod` fails with the attribute-capacity error as soon as the
accumulated entry count would pass `LUALDAP_MAX_ATTRS`, provided the
value capacities do not run out first. -/
theorem A_tab2mod_overflow (g : LuaTable) (a : attrs_data) (op : Nat)
    (hwf : tab_wf g = true)
    (hb : a.bi + tab_bvals g ≤ LUALDAP_MAX_VALUES)
    (hv : a.vi + tab_vslots g ≤ LUALDAP_ARRAY_VALUES_SIZE)
    (hai : a.ai ≤ LUALDAP_MAX_ATTRS)
    (hover : LUALDAP_MAX_ATTRS < a.ai + tab_nattrs g) :
    A_tab2mod a g op = .error ("LuaLDAP: too many attributes") := by
  induction g generalizing a with
  | nil =>
    simp [tab_nattrs, tab_attrs] at hover
    omega
  | cons p rest ih =>
    obtain ⟨k, v⟩ := p
    by_cases hk : is_attr_key k = true
    · simp only [tab_wf, tab_attrs_cons_pos k v rest hk, List.all_cons] at hwf
      obtain ⟨hwf1, hwf2⟩ := (Bool.and_eq_true _ _).mp hwf
      simp only [tab_nattrs, tab_bvals, tab_vslots, tab_attrs_cons_pos k v rest hk,
        List.length_cons, List.map_cons, List.sum_cons] at hb hv hover
      by_cases hcap : a.ai ≥ LUALDAP_MAX_ATTRS
      · simp [A_tab2mod, hk, A_setmod_overflow a op (lua_tostr k) v hcap]
      · have hstep := A_setmod_ok a op (lua_tostr k) v (by omega) hwf1 (by omega) (by omega)
        have hrec := ih ⟨a.ai + 1, a.mods ++ [⟨op, lua_tostr k, encval v⟩],
            a.vi + vslot_count v, a.bi + bval_count v⟩
          (by simpa [tab_wf] using hwf2)
          (by simp [tab_bvals]; omega) (by simp [tab_vslots]; omega)
          (by simp; omega) (by simp [tab_nattrs]; omega)
        simp [A_tab2mod, hk, hstep, hrec]
    · have hk' : is_attr_key k = false := by simpa using hk
      simp only [tab_wf, tab_attrs_cons_neg k v rest hk'] at hwf
      simp only [tab_nattrs, tab_bvals, tab_vslots, tab_attrs_cons_neg k v rest hk'] at hb hv hover
      simp only [A_tab2mod, hk', Bool.false_eq_true, if_false]
      exact ih a (by simpa [tab_wf] using hwf) hb hv hai hover

/-- `A_lastattr` below capacity just bumps the counter. -/
theorem A_lastattr_ok (a : attrs_data) (h : a.ai < LUALDAP_MAX_ATTRS) :
    A_lastattr a = .ok { a with ai := a.ai + 1 } := by
  simp [A_lastattr, Nat.not_le.mpr h]

/-- `A_lastattr` at capacity fails: the terminating NULL needs a slot of
the same array, so a build with exactly `LUALDAP_MAX_ATTRS` entries
already fails. -/
theorem A_lastattr_overflow (a : attrs_data) (h : a.ai ≥ LUALDAP_MAX_ATTRS) :
    A_lastattr a = .error ("LuaLDAP: too many attributes") := by
  simp [A_lastattr, h]

/-- The `lualdap_modify` group loop, when every group carries a valid
sigil, all kept values are well formed, the total entry count leaves
room for the terminator, and the value capacities are respected. -/
theorem modify_loop_ok (gs : List LuaTable) (a : attrs_data) (p : Nat)
    (hop : ∀ g ∈ gs, group_op g ≠ LUALDAP_NO_OP)
    (hwf : ∀ g ∈ gs, tab_wf g = true)
    (ha : a.ai + groups_nattrs gs < LUALDAP_MAX_ATTRS)
    (hb : a.bi + groups_bvals gs ≤ LUALDAP_MAX_VALUES)
    (hv : a.vi + groups_vslots gs ≤ LUALDAP_ARRAY_VALUES_SIZE) :
    modify_loop a p gs = .ok ⟨a.ai + groups_nattrs gs + 1, a.mods ++ groups_mods gs,
      a.vi + groups_vslots gs, a.bi + groups_bvals gs⟩ := by
  induction gs generalizing a p with
  | nil =>
    simp only [groups_nattrs, List.map_nil, List.sum_nil, Nat.add_zero] at ha
    simp [modify_loop, A_lastattr_ok a ha, groups_nattrs, groups_bvals, groups_vslots, groups_mods]
  | cons g gs ih =>
    have hopg : group_op g ≠ LUALDAP_NO_OP := hop g (List.mem_cons_self g gs)
    simp only [groups_nattrs, groups_bvals, groups_vslots, List.map_cons, List.sum_cons] at ha hb hv
    have hstep := A_tab2mod_ok g a (group_op g) (hwf g (List.mem_cons_self g gs))
      (by omega) (by omega) (by omega)
    have hrec := ih ⟨a.ai + tab_nattrs g, a.mods ++ tab_mods g (group_op g),
        a.vi + tab_vslots g, a.bi + tab_bvals g⟩ (p + 1)
      (fun g' hg' => hop g' (List.mem_cons_of_mem _ hg'))
      (fun g' hg' => hwf g' (List.mem_cons_of_mem _ hg'))
      (by simp [groups_nattrs]; omega) (by simp [groups_bvals]; omega)
      (by simp [groups_vslots]; omega)
    simp only [modify_loop, hopg, if_false, hstep, hrec]
    simp [groups_mods, groups_nattrs, groups_bvals, groups_vslots]
    refine ⟨by omega, by omega, by omega⟩

/-- The `lualdap_modify` group loop fails with the attribute-capacity
error when the total entry count reaches `LUALDAP_MAX_ATTRS` (the
terminator then no longer fits), provided every sigil is valid, kept
values are well formed and the value capacities are respected. -/
theorem modify_loop_overflow (gs : List LuaTable) (a : attrs_data) (p : Nat)
    (hop : ∀ g ∈ gs, group_op g ≠ LUALDAP_NO_OP)
    (hwf : ∀ g ∈ gs, tab_wf g = true)
    (hb : a.bi + groups_bvals gs ≤ LUALDAP_MAX_VALUES)
    (hv : a.vi + groups_vslots gs ≤ LUALDAP_ARRAY_VALUES_SIZE)
    (hai : a.ai ≤ LUALDAP_MAX_ATTRS)
    (hover : LUALDAP_MAX_ATTRS ≤ a.ai + groups_nattrs gs) :
    modify_loop a p gs = .error ("LuaLDAP: too many attributes") := by
  induction gs generalizing a p with
  | nil =>
    simp only [groups_nattrs, List.map_nil, List.sum_nil, Nat.add_zero] at hover
    exact A_lastattr_overflow a hover
  | cons g gs ih =>
    have hopg : group_op g ≠ LUALDAP_NO_OP := hop g (List.mem_cons_self g gs)
    simp only [groups_nattrs, groups_bvals, groups_vslots, List.map_cons, List.sum_cons] at hb hv hover
    by_cases hsplit : LUALDAP_MAX_ATTRS < a.ai + tab_nattrs g
    · have hstep := A_tab2mod_overflow g a (group_op g) (hwf g (List.mem_cons_self g gs))
        (by omega) (by omega) hai hsplit
      simp [modify_loop, hopg, hstep]
    · have hstep := A_tab2mod_ok g a (group_op g) (hwf g (List.mem_cons_self g gs))
        (by omega) (by omega) (by omega)
      have hrec := ih ⟨a.ai + tab_nattrs g, a.mods ++ tab_mods g (group_op g),
          a.vi + tab_vslots g, a.bi + tab_bvals g⟩ (p + 1)
        (fun g' hg' => hop g' (List.mem_cons_of_mem _ hg'))
        (fun g' hg' => hwf g' (List.mem_cons_of_mem _ hg'))
        (by simp [groups_bvals]; omega) (by simp [groups_vslots]; omega)
        (by simp; omega) (by simp [groups_nattrs]; omega)
      simp [modify_loop, hopg, hstep, hrec]

/-- C1 (amended): across all groups of one modify/add operation the
change-set builder accepts at most `LUALDAP_MAX_ATTRS - 1 = 99`
modification entries — the terminating NULL of the `attrs` array is
counted against the same `LUALDAP_MAX_ATTRS` ceiling — and building
with `LUALDAP_MAX_ATTRS` or more entries (in any combination of groups)
fails with the fatal capacity error `"too many attributes"` rather than
growing dynamically.  Hypotheses: the connection is open, every group
carries a recognized sigil, the kept values are well formed, and the
two value-capacity ceilings are not hit first. -/
theorem C1_capacity (c : conn_data) (dn : String) (gs : List LuaTable)
    (hopen : c.ld.isSome = true)
    (hop : ∀ g ∈ gs, group_op g ≠ LUALDAP_NO_OP)
    (hwf : ∀ g ∈ gs, tab_wf g = true)
    (hb : groups_bvals gs ≤ LUALDAP_MAX_VALUES)
    (hv : groups_vslots gs ≤ LUALDAP_ARRAY_VALUES_SIZE) :
    (groups_nattrs gs < LUALDAP_MAX_ATTRS →
      lualdap_modify c dn gs =
        .ok ⟨groups_nattrs gs + 1, groups_mods gs, groups_vslots gs, groups_bvals gs⟩) ∧
    (LUALDAP_MAX_ATTRS ≤ groups_nattrs gs →
      lualdap_modify c dn gs = .error ("LuaLDAP: too many attributes")) := by
  have hconn : getconnection c = .ok c := by simp [getconnection, hopen]
  constructor
  · intro h
    have hloop := modify_loop_ok gs A_init 3 hop hwf
      (by simpa [A_init] using h) (by simpa [A_init] using hb) (by simpa [A_init] using hv)
    simp only [lualdap_modify, hconn]
    simpa [A_init] using hloop
  · intro h
    have hloop := modify_loop_overflow gs A_init 3 hop hwf
      (by simpa [A_init] using hb) (by simpa [A_init] using hv)
      (by simp [A_init]) (by simpa [A_init] using h)
    simp only [lualdap_modify, hconn]
    exact hloop

/-- Witness for C1: one group adding `cn = "test"` (one entry, below
every ceiling) builds the one-modification array plus terminator. -/
theorem C1_capacity_witness :
    lualdap_modify ⟨3, some 1⟩ ("dc=example") [[(LuaVal.num 1, LuaVal.str "+"), (LuaVal.str "cn", LuaVal.str ("test"))]] =
      .ok ⟨2, [⟨LUALDAP_MOD_ADD, "cn", some ["test"]⟩], 2, 1⟩ := by
  have h := C1_capacity ⟨3, some 1⟩ ("dc=example")
    [[(LuaVal.num 1, LuaVal.str "+"), (LuaVal.str "cn", LuaVal.str ("test"))]]
    (by decide) (by decide) (by decide) (by decide) (by decide)
  exact (h.1 (by decide)).trans rfl

/-- One hundred single-entry groups: exactly `LUALDAP_MAX_ATTRS`
modification entries in total. -/
def c1_full_groups : List LuaTable :=
  List.replicate 100 [(LuaVal.num 1, LuaVal.str "="), (LuaVal.str "a", LuaVal.boolean true)]

set_option maxRecDepth 100000 in
/-- Counterexample to C1 as stated: the claim allows up to
`MAX_ATTRS = 100` modification entries, but a build with exactly 100
entries already fails with `"too many attributes"` (the array's NULL
terminator needs a 101st slot of the same bounded array), so the real
ceiling is 99. -/
theorem C1_counterexample :
    groups_nattrs c1_full_groups = 100 ∧
    lualdap_modify ⟨3, some 1⟩ ("dc=example") c1_full_groups =
      .error ("LuaLDAP: too many attributes") := by
  exact ⟨rfl, rfl⟩

/-- C2 (amended): a modify group whose first positional element does not
carry a recognized sigil character aborts with the fatal
`"forgotten operation on argument #N"` error, where `N` is the group's
stack position (the first group sits at argument position 3); but
`modify` with zero groups does not fail — the loop is skipped and an
empty modification array (just the terminator) is submitted. -/
theorem C2_missing_sigil :
    (∀ (a : attrs_data) (p : Nat) (g : LuaTable) (gs : List LuaTable),
        group_op g = LUALDAP_NO_OP →
        modify_loop a p (g :: gs) =
          .error ("LuaLDAP: forgotten operation on argument #" ++ toString p)) ∧
    (∀ (c : conn_data) (dn : String) (g : LuaTable) (gs : List LuaTable),
        c.ld.isSome = true → group_op g = LUALDAP_NO_OP →
        lualdap_modify c dn (g :: gs) =
          .error ("LuaLDAP: forgotten operation on argument #3")) ∧
    (∀ (c : conn_data) (dn : String), c.ld.isSome = true →
        lualdap_modify c dn [] = .ok ⟨1, [], 0, 0⟩) := by
  refine ⟨?_, ?_, ?_⟩
  · intro a p g gs h
    simp [modify_loop, h]
  · intro c dn g gs hopen h
    have hconn : getconnection c = .ok c := by simp [getconnection, hopen]
    have h3 : ("LuaLDAP: forgotten operation on argument #" ++ toString 3) =
        "LuaLDAP: forgotten operation on argument #3" := rfl
    simp [lualdap_modify, hconn, modify_loop, h, h3]
  · intro c dn hopen
    have hconn : getconnection c = .ok c := by simp [getconnection, hopen]
    simp [lualdap_modify, hconn, modify_loop, A_lastattr, A_init, LUALDAP_MAX_ATTRS]

/-- Witness for C2: a group whose first element is the string `"x"`
(no recognized sigil) aborts naming argument position 3, and a modify
with zero groups on an open connection builds the empty array. -/
theorem C2_missing_sigil_witness :
    lualdap_modify ⟨3, some 1⟩ ("dc=example") [[(LuaVal.num 1, LuaVal.str "x")]] =
      .error ("LuaLDAP: forgotten operation on argument #3") ∧
    lualdap_modify ⟨3, some 1⟩ ("dc=example") [] = .ok ⟨1, [], 0, 0⟩ :=
  ⟨C2_missing_sigil.2.1 ⟨3, some 1⟩ ("dc=example") [(LuaVal.num 1, LuaVal.str "x")] []
      (by decide) (by decide),
    C2_missing_sigil.2.2 ⟨3, some 1⟩ ("dc=example") (by decide)⟩

/-- Counterexample to C2 as stated: the claim says calling modify with
zero groups fails with the missing-operation error on the first
position; in the code the group loop is simply skipped, the build
succeeds with an empty modification array, and the operation is
submitted. -/
theorem C2_counterexample :
    lualdap_modify ⟨3, some 1⟩ ("dc=example") [] = .ok ⟨1, [], 0, 0⟩ ∧
    lualdap_modify ⟨3, some 1⟩ ("dc=example") [] ≠
      .error ("LuaLDAP: forgotten operation on argument #3") := by
  refine ⟨rfl, ?_⟩
  intro h
  exact Except.noConfusion
    ((rfl : lualdap_modify ⟨3, some 1⟩ ("dc=example") [] = .ok ⟨1, [], 0, 0⟩).symm.trans h)

/-- The value list of the server entry equivalent to one built
modification: a NULL `mod_bvalues` corresponds to an attribute with
zero values, otherwise the listed values in order (this is what
`ldap_get_values_len` hands to `push_values`). -/
def serverVals (bv : Option (List String)) : List String := bv.getD []

/-- Decode one built modification back through the search stream's
entry decoder. -/
def decode_mod (md : LDAPMod) : String × LuaVal :=
  (md.mod_type, push_values (serverVals md.mod_bvalues))

/-- A plain string value (not a number). -/
def isStrVal : LuaVal → Bool
  | .str _ => true
  | _ => false

/-- The encode/decode shapes that mirror exactly: boolean `true`, a
byte string, or a sequence of at least two byte strings. -/
def GoodShape : LuaVal → Bool
  | .boolean true => true
  | .str _ => true
  | .tbl (v1 :: v2 :: vs) => (v1 :: v2 :: vs).all isStrVal
  | _ => false

/-- Lists of plain strings are fixed by re-wrapping their text. -/
theorem strlist_roundtrip (l : List LuaVal) (h : l.all isStrVal = true) :
    l.map (fun e => LuaVal.str (lua_tostr e)) = l := by
  induction l with
  | nil => rfl
  | cons e es ih =>
    simp only [List.all_cons] at h
    obtain ⟨h1, h2⟩ := (Bool.and_eq_true _ _).mp h
    have hrest := ih h2
    match e, h1 with
    | .str s, _ =>
      simp only [List.map_cons, hrest]
      rfl

/-- `GoodShape` values are accepted by the builder. -/
theorem GoodShape_wf (v : LuaVal) (h : GoodShape v = true) : WFval v = true := by
  match v, h with
  | .boolean true, _ => rfl
  | .str s, _ => rfl
  | .tbl (v1 :: v2 :: vs), h =>
    simp only [GoodShape] at h
    simp only [WFval, List.all_eq_true] at h ⊢
    intro e he
    have := h e he
    match e, this with
    | .str s, _ => rfl

/-- Decoding the server-entry equivalent of an encoded `GoodShape`
value yields the value back. -/
theorem encdec (v : LuaVal) (h : GoodShape v = true) :
    push_values (serverVals (encval v)) = v := by
  match v, h with
  | .boolean true, _ => rfl
  | .str s, _ => rfl
  | .tbl (v1 :: v2 :: vs), h =>
    simp only [GoodShape] at h
    simp only [encval, serverVals, Option.getD, List.map_cons, push_values, List.map_map]
    have := strlist_roundtrip (v1 :: v2 :: vs) h
    simpa [Function.comp] using this

/-- Pointwise decode-of-encode over an attribute map. -/
theorem decode_encode_map (m : List (String × LuaVal))
    (hvals : ∀ p ∈ m, GoodShape p.2 = true) :
    m.map (fun p => (p.1, push_values (serverVals (encval p.2)))) = m := by
  induction m with
  | nil => rfl
  | cons p ps ih =>
    have h1 := hvals p (List.mem_cons_self p ps)
    have h2 := ih (fun q hq => hvals q (List.mem_cons_of_mem _ hq))
    simp [encdec p.2 h1, h2]

/-- An attribute map laid down as a Lua table whose keys are strings. -/
def str_table (m : List (String × LuaVal)) : LuaTable :=
  m.map (fun p => (LuaVal.str p.1, p.2))

/-- With non-numeric string keys, `A_tab2mod` keeps every entry. -/
theorem str_table_attrs (m : List (String × LuaVal))
    (hkeys : ∀ p ∈ m, lua_isnumber (LuaVal.str p.1) = false) :
    tab_attrs (str_table m) = str_table m := by
  unfold tab_attrs
  apply List.filter_eq_self.mpr
  intro p hp
  obtain ⟨q, hq, rfl⟩ := List.mem_map.mp hp
  simp [is_attr_key, lua_isstring, hkeys q hq]

/-- C3 (amended): for every attribute map with non-numeric string keys
whose values are boolean `true`, byte strings, or sequences of at least
two byte strings (and which fits the capacity ceilings), encoding it
through the change-set builder and decoding the equivalent server entry
through the search stream's entry decoder yields back an equal map.
The one-element-sequence shape is excluded: it encodes to a one-value
list, which the decoder returns as the raw byte string (see the
counterexample), so the encode and decode shapes mirror exactly only on
the shapes above. -/
theorem C3_roundtrip (m : List (String × LuaVal)) (op : Nat)
    (hkeys : ∀ p ∈ m, lua_isnumber (LuaVal.str p.1) = false)
    (hvals : ∀ p ∈ m, GoodShape p.2 = true)
    (hn : m.length ≤ LUALDAP_MAX_ATTRS)
    (hb : (m.map (fun p => bval_count p.2)).sum ≤ LUALDAP_MAX_VALUES)
    (hv : (m.map (fun p => vslot_count p.2)).sum ≤ LUALDAP_ARRAY_VALUES_SIZE) :
    ∃ a : attrs_data,
      A_tab2mod A_init (str_table m) op = .ok a ∧
      a.mods.map decode_mod = m := by
  have hattrs : tab_attrs (str_table m) = str_table m := str_table_attrs m hkeys
  have hwf : tab_wf (str_table m) = true := by
    show (tab_attrs (str_table m)).all (fun p => WFval p.2) = true
    rw [hattrs]
    simp only [str_table, List.all_eq_true]
    intro p hp
    obtain ⟨q, hq, rfl⟩ := List.mem_map.mp hp
    exact GoodShape_wf _ (hvals q hq)
  have hnat : tab_nattrs (str_table m) = m.length := by
    show (tab_attrs (str_table m)).length = m.length
    rw [hattrs]
    simp [str_table]
  have hbv : tab_bvals (str_table m) = (m.map (fun p => bval_count p.2)).sum := by
    show ((tab_attrs (str_table m)).map (fun p => bval_count p.2)).sum = _
    rw [hattrs]
    simp only [str_table, List.map_map]
    rfl
  have hvs : tab_vslots (str_table m) = (m.map (fun p => vslot_count p.2)).sum := by
    show ((tab_attrs (str_table m)).map (fun p => vslot_count p.2)).sum = _
    rw [hattrs]
    simp only [str_table, List.map_map]
    rfl
  have hbuild := A_tab2mod_ok (str_table m) A_init op hwf
    (by simp [A_init, hnat]; omega) (by simp [A_init, hbv]; omega) (by simp [A_init, hvs]; omega)
  refine ⟨_, hbuild, ?_⟩
  have hmods : tab_mods (str_table m) op =
      m.map (fun p => (⟨op, p.1, encval p.2⟩ : LDAPMod)) := by
    show (tab_attrs (str_table m)).map _ = _
    rw [hattrs]
    simp only [str_table, List.map_map]
    rfl
  simp only [A_init, List.nil_append, hmods, List.map_map]
  exact decode_encode_map m hvals

/-- Witness for C3: the map `cn = "test", objectClass = ["top",
"person"]` encodes to two modifications and decodes back to itself. -/
theorem C3_roundtrip_witness :
    ∃ a : attrs_data,
      A_tab2mod A_init (str_table [("cn", LuaVal.str ("test")),
        ("objectClass", LuaVal.tbl [LuaVal.str ("top"), LuaVal.str ("person")])]) LUALDAP_MOD_ADD = .ok a ∧
      a.mods.map decode_mod = [("cn", LuaVal.str ("test")),
        ("objectClass", LuaVal.tbl [LuaVal.str ("top"), LuaVal.str ("person")])] :=
  C3_roundtrip [("cn", LuaVal.str ("test")),
      ("objectClass", LuaVal.tbl [LuaVal.str ("top"), LuaVal.str ("person")])] LUALDAP_MOD_ADD
    (by decide) (by decide) (by decide) (by decide) (by decide)

/-- Counterexample to C3 as stated: a one-element sequence of one
non-empty byte string encodes to a one-value list, which the entry
decoder gives back as the raw byte string, not as a sequence — the
decoded map differs from the original. -/
theorem C3_counterexample :
    (A_tab2mod A_init (str_table [("a", LuaVal.tbl [LuaVal.str ("x")])]) LUALDAP_MOD_ADD).map
        (fun a => a.mods.map decode_mod) =
      .ok [("a", LuaVal.str ("x"))] ∧
    [("a", LuaVal.str ("x"))] ≠ [("a", LuaVal.tbl [LuaVal.str ("x")])] := by
  constructor
  · rfl
  · intro h
    injection h with h1 h2
    injection h1 with ha hb
    exact LuaVal.noConfusion hb

/-- C4: on an open connection, once `ldap_parse_result` succeeds, the
protocol result code `LDAP_SUCCESS` or `LDAP_COMPARE_TRUE` decodes to
logical `true`, `LDAP_COMPARE_FALSE` to logical `false`, and every
other code to the soft failure pair `(nil, text)` in which the text
carries the protocol's human-readable error string (`ldap_err2string`,
behind the library's `"LuaLDAP: "` marker), suffixed with the
parenthesized diagnostic exactly when the server supplied one. -/
theorem C4_result_decode (e2s : Nat → String) (c : conn_data) (pr : ParsedResult)
    (hopen : c.ld.isSome = true) (hparse : pr.parse_rc = LDAP_SUCCESS) :
    ((pr.err = LDAP_SUCCESS ∨ pr.err = LDAP_COMPARE_TRUE) →
        result_message e2s c (.msg pr) = (.ok true, true)) ∧
    (pr.err = LDAP_COMPARE_FALSE →
        result_message e2s c (.msg pr) = (.ok false, true)) ∧
    (pr.err ≠ LDAP_SUCCESS → pr.err ≠ LDAP_COMPARE_TRUE → pr.err ≠ LDAP_COMPARE_FALSE →
        result_message e2s c (.msg pr) =
          (.nilMsg ("LuaLDAP: " ++ e2s pr.err ++ diag_suffix pr.diag), true)) ∧
    diag_suffix none = "" ∧ (∀ msg, diag_suffix (some msg) = " (" ++ msg ++ ")") := by
  have hnone : c.ld.isNone = false := by
    cases h : c.ld <;> simp_all
  refine ⟨?_, ?_, ?_, rfl, fun msg => rfl⟩
  · intro h
    simp [result_message, hnone, hparse, h]
  · intro h
    have hs : pr.err ≠ LDAP_SUCCESS := by rw [h]; decide
    have ht : pr.err ≠ LDAP_COMPARE_TRUE := by rw [h]; decide
    simp [result_message, hnone, hparse, h, hs, ht]
    decide
  · intro h1 h2 h3
    simp [result_message, hnone, hparse, h1, h2, h3]

/-- Witness for C4: with a concrete error-string table, code 0 decodes
to `true`, code 5 to `false`, and code 32 (`noSuchObject`) with the
diagnostic `"details"` decodes to the suffixed soft failure. -/
theorem C4_result_decode_witness :
    result_message (fun n => "e" ++ toString n) ⟨3, some 1⟩ (.msg ⟨0, 0, none, none⟩) = (.ok true, true) ∧
    result_message (fun n => "e" ++ toString n) ⟨3, some 1⟩ (.msg ⟨0, 5, none, none⟩) = (.ok false, true) ∧
    result_message (fun n => "e" ++ toString n) ⟨3, some 1⟩ (.msg ⟨0, 32, none, some ("details")⟩) =
      (.nilMsg ("LuaLDAP: e32 (details)"), true) := by
  refine ⟨(C4_result_decode (fun n => "e" ++ toString n) ⟨3, some 1⟩ ⟨0, 0, none, none⟩
      rfl rfl).1 (by decide), ?_, ?_⟩
  · exact (C4_result_decode (fun n => "e" ++ toString n) ⟨3, some 1⟩ ⟨0, 5, none, none⟩
      rfl rfl).2.1 (by decide)
  · exact ((C4_result_decode (fun n => "e" ++ toString n) ⟨3, some 1⟩ ⟨0, 32, none, some ("details")⟩
      rfl rfl).2.2.1 (by decide) (by decide) (by decide)).trans rfl

/-- C5 (code bug): both polling paths turn a negative `ldap_result`
return into the distinguished soft failure `(nil, "result error")`,
distinct from the timeout failure — but while `result_message` calls
`ldap_msgfree` on this path, `next_message` returns without releasing
the message (third component `false`): the cleanup the design requires
is skipped on the search stream's transport-error path. -/
theorem C5_transport_error_leak :
    result_message (fun _ => "") ⟨3, some 1⟩ .transportErr =
      (.nilMsg ("LuaLDAP: result error"), true) ∧
    next_message ⟨some 1, 7⟩ true (-1) dummy_msg =
      (.nilMsg ("LuaLDAP: result error"), ⟨some 1, 7⟩, false) ∧
    ("LuaLDAP: result error") ≠ ("LuaLDAP: result timeout expired") := by
  refine ⟨rfl, rfl, by decide⟩

/-- C6 (amended): every dispatcher operation (add, modify, delete,
compare, rename, search) and every future fetch checks the connection
handle and fails with the named error `"LDAP connection is closed"`
when it is NULL, and a next call on a closed search cursor fails with
the named error `"LDAP search is closed"` — but the search stream's
next call does NOT check the connection handle: on an open cursor whose
connection has been closed it hands the NULL handle straight to the
transport's `ldap_result` (undefined behavior) instead of failing with
the named error. -/
theorem C6_closed_checks :
    (∀ (c : conn_data) (dn : String) (arg : AddArg), c.ld = none →
        lualdap_add c dn arg = .error ("LuaLDAP: LDAP connection is closed")) ∧
    (∀ (c : conn_data) (dn : String) (gs : List LuaTable), c.ld = none →
        lualdap_modify c dn gs = .error ("LuaLDAP: LDAP connection is closed")) ∧
    (∀ (c : conn_data) (dn : String), c.ld = none →
        lualdap_delete c dn = .error ("LuaLDAP: LDAP connection is closed")) ∧
    (∀ (c : conn_data) (dn attr value : String), c.ld = none →
        lualdap_compare c dn attr value = .error ("LuaLDAP: LDAP connection is closed")) ∧
    (∀ (c : conn_data) (dn rdn : String) (par : Option String) (del : Option Int), c.ld = none →
        lualdap_rename c dn rdn par del = .error ("LuaLDAP: LDAP connection is closed")) ∧
    (∀ (c : conn_data) (spec : Option (List (String × LuaVal))), c.ld = none →
        lualdap_search c spec = .error ("LuaLDAP: LDAP connection is closed")) ∧
    (∀ (e2s : Nat → String) (c : conn_data) (poll : LdapPoll), c.ld = none →
        result_message e2s c poll = (.error ("LuaLDAP: LDAP connection is closed"), false)) ∧
    (∀ (s : search_data) (ld : Bool) (rc : Int) (m : SearchMsg), s.conn = none →
        next_message s ld rc m = (.fatal ("LuaLDAP: LDAP search is closed"), s, false)) ∧
    (∀ (s : search_data) (r : Nat) (rc : Int) (m : SearchMsg), s.conn = some r →
        next_message s false rc m = (.nullDeref, s, false)) := by
  refine ⟨?_, ?_, ?_, ?_, ?_, ?_, ?_, ?_, ?_⟩
  · intro c dn arg h
    simp [lualdap_add, getconnection, h]
  · intro c dn gs h
    simp [lualdap_modify, getconnection, h]
  · intro c dn h
    simp [lualdap_delete, getconnection, h]
  · intro c dn attr value h
    simp [lualdap_compare, getconnection, h]
  · intro c dn rdn par del h
    simp [lualdap_rename, getconnection, h]
  · intro c spec h
    simp [lualdap_search, getconnection, h]
  · intro e2s c poll h
    simp [result_message, h]
  · intro s ld rc m h
    simp [next_message, h]
  · intro s r rc m h
    simp [next_message, h]

/-- Witness for C6: a connection userdata whose handle is NULL makes
`add` and the future fetch fail with the named error, and a closed
cursor makes next fail with its named error. -/
theorem C6_closed_checks_witness :
    lualdap_add ⟨3, none⟩ ("dc=example") (.table []) =
      .error ("LuaLDAP: LDAP connection is closed") ∧
    result_message (fun _ => "") ⟨3, none⟩ .timeout =
      (.error ("LuaLDAP: LDAP connection is closed"), false) ∧
    next_message ⟨none, 7⟩ true 0 dummy_msg =
      (.fatal ("LuaLDAP: LDAP search is closed"), ⟨none, 7⟩, false) :=
  ⟨C6_closed_checks.1 ⟨3, none⟩ ("dc=example") (.table []) rfl,
    C6_closed_checks.2.2.2.2.2.2.1 (fun _ => "") ⟨3, none⟩ .timeout rfl,
    C6_closed_checks.2.2.2.2.2.2.2.1 ⟨none, 7⟩ true 0 dummy_msg rfl⟩

/-- Counterexample to C6 as stated: a next call on an open search
cursor whose connection has been closed does not produce the named
`"LDAP connection is closed"` error — it reaches the transport poll
with the NULL handle. -/
theorem C6_counterexample :
    next_message ⟨some 1, 7⟩ false 0 dummy_msg = (.nullDeref, ⟨some 1, 7⟩, false) ∧
    NextOutcome.nullDeref ≠ .fatal ("LuaLDAP: LDAP connection is closed") ∧
    NextOutcome.nullDeref ≠ .nilMsg ("LuaLDAP: LDAP connection is closed") := by
  refine ⟨rfl, fun h => NextOutcome.noConfusion h, fun h => NextOutcome.noConfusion h⟩

/-- C7: receiving the terminal `LDAP_RES_SEARCH_RESULT` message closes
the cursor (the connection reference is released) and that call reports
the end of the stream with no payload and after freeing the message;
a next call on a closed cursor is the fatal caller error
`"LDAP search is closed"`; an explicit close of an already-closed
cursor returns no values (silent no-op), while closing an open cursor
releases the reference and returns 1. -/
theorem C7_cursor_lifecycle (s : search_data) (r : Nat) (rc : Int) (m : SearchMsg) :
    (s.conn = some r → rc = LDAP_RES_SEARCH_RESULT →
        next_message s true rc m = (.done, { s with conn := none }, true)) ∧
    (s.conn = some r → rc ≠ 0 → rc ≠ -1 → m.msgtype = LDAP_RES_SEARCH_RESULT →
        next_message s true rc m = (.done, { s with conn := none }, true)) ∧
    (s.conn = none →
        next_message s true rc m = (.fatal ("LuaLDAP: LDAP search is closed"), s, false)) ∧
    (s.conn = none → lualdap_search_close s = ([], s)) ∧
    (s.conn = some r → lualdap_search_close s = ([LuaVal.num 1], { s with conn := none })) := by
  refine ⟨?_, ?_, ?_, ?_, ?_⟩
  · intro h hrc
    simp [next_message, h, hrc, LDAP_RES_SEARCH_RESULT]
  · intro h h0 h1 hmt
    by_cases hrc : rc = LDAP_RES_SEARCH_RESULT
    · simp [next_message, h, hrc, LDAP_RES_SEARCH_RESULT]
    · simp [next_message, h, h0, h1, hrc, hmt,
        LDAP_RES_SEARCH_RESULT, LDAP_RES_SEARCH_ENTRY, LDAP_RES_SEARCH_REFERENCE]
  · intro h
    simp [next_message, h]
  · intro h
    simp [lualdap_search_close, h]
  · intro h
    simp [lualdap_search_close, h]

/-- Witness for C7: a concrete open cursor sees the terminal message
and closes; the now-closed cursor errors on the next call; closing
again is a silent no-op. -/
theorem C7_cursor_lifecycle_witness :
    next_message ⟨some 2, 9⟩ true 101 dummy_msg = (.done, ⟨none, 9⟩, true) ∧
    next_message ⟨none, 9⟩ true 101 dummy_msg =
      (.fatal ("LuaLDAP: LDAP search is closed"), ⟨none, 9⟩, false) ∧
    lualdap_search_close ⟨none, 9⟩ = ([], ⟨none, 9⟩) :=
  ⟨(C7_cursor_lifecycle ⟨some 2, 9⟩ 2 101 dummy_msg).1 rfl rfl,
    (C7_cursor_lifecycle ⟨none, 9⟩ 2 101 dummy_msg).2.2.1 rfl,
    (C7_cursor_lifecycle ⟨none, 9⟩ 2 101 dummy_msg).2.2.2.1 rfl⟩

/-- `attrs_loop` copies a list of string (or number) elements. -/
theorem attrs_loop_ok (l : List LuaVal) (i : Nat)
    (h : ∀ v ∈ l, lua_isstring v = true) :
    attrs_loop l i = .ok (l.map lua_tostr) := by
  induction l generalizing i with
  | nil => rfl
  | cons v vs ih =>
    simp [attrs_loop, h v (List.mem_cons_self v vs),
      ih (i + 1) (fun e he => h e (List.mem_cons_of_mem _ he))]

/-- `attrs_loop` stops at the first element that is neither string nor
number, reporting its 1-based position. -/
theorem attrs_loop_err (pre : List LuaVal) (v : LuaVal) (post : List LuaVal) (i : Nat)
    (hpre : ∀ e ∈ pre, lua_isstring e = true) (hv : lua_isstring v = false) :
    attrs_loop (pre ++ v :: post) i =
      .error ("LuaLDAP: invalid value #" ++ toString (pre.length + i)) := by
  induction pre generalizing i with
  | nil =>
    simp [attrs_loop, hv]
  | cons e es ih =>
    have hrec := ih (i + 1) (fun x hx => hpre x (List.mem_cons_of_mem _ hx))
    have harith : es.length + (i + 1) = es.length + 1 + i := by omega
    simp [attrs_loop, hpre e (List.mem_cons_self e es), hrec, harith]

/-- C9 (amended): for a search whose `attrs` option is a sequence of
`n` elements, if `n + 1` exceeds `LUALDAP_MAX_ATTRS` (that is,
`n > 99`) the call fails with the fatal `"too many arguments"` error
before anything is submitted; otherwise the requested-attribute array
holds exactly the `n` names in order (the NULL terminator being the
array's end), and the first element that is neither a string nor a
number — a number is coerced to its decimal text, not rejected — makes
the call fail with the fatal error `"invalid value #i"` naming its
1-based position. -/
theorem C9_attrs_param (l : List LuaVal) :
    (99 < l.length → get_attrs_param (.tbl l) = .error ("LuaLDAP: too many arguments")) ∧
    (l.length ≤ 99 → (∀ v ∈ l, lua_isstring v = true) →
        get_attrs_param (.tbl l) = .ok (l.map lua_tostr)) ∧
    (∀ (pre : List LuaVal) (v : LuaVal) (post : List LuaVal),
        l = pre ++ v :: post → l.length ≤ 99 →
        (∀ e ∈ pre, lua_isstring e = true) → lua_isstring v = false →
        get_attrs_param (.tbl l) =
          .error ("LuaLDAP: invalid value #" ++ toString (pre.length + 1))) := by
  refine ⟨?_, ?_, ?_⟩
  · intro h
    have h1 : LUALDAP_MAX_ATTRS < l.length + 1 := by
      rw [LUALDAP_MAX_ATTRS_eq]; omega
    simp [get_attrs_param, lua_isstring, h1]
  · intro hn hall
    have h1 : ¬ LUALDAP_MAX_ATTRS < l.length + 1 := by
      rw [LUALDAP_MAX_ATTRS_eq]; omega
    simp [get_attrs_param, lua_isstring, h1, attrs_loop_ok l 1 hall]
  · intro pre v post hsplit hn hpre hv
    subst hsplit
    simp only [List.length_append, List.length_cons] at hn
    have h1 : ¬ LUALDAP_MAX_ATTRS < pre.length + (post.length + 1) + 1 := by
      rw [LUALDAP_MAX_ATTRS_eq]; omega
    simp [get_attrs_param, lua_isstring, h1, attrs_loop_err pre v post 1 hpre hv]

/-- Witness for C9: 100 requested names overflow; a boolean element in
second position is rejected naming position 2; a small all-string list
is copied in order. -/
theorem C9_attrs_param_witness :
    get_attrs_param (.tbl (List.replicate 100 (LuaVal.str ("a")))) =
      .error ("LuaLDAP: too many arguments") ∧
    get_attrs_param (.tbl [LuaVal.str ("cn"), LuaVal.boolean false]) =
      .error ("LuaLDAP: invalid value #2") ∧
    get_attrs_param (.tbl [LuaVal.str ("cn"), LuaVal.str ("sn")]) = .ok (["cn", "sn"]) := by
  refine ⟨(C9_attrs_param (List.replicate 100 (LuaVal.str ("a")))).1 (by decide), ?_, ?_⟩
  · exact ((C9_attrs_param [LuaVal.str ("cn"), LuaVal.boolean false]).2.2
      [LuaVal.str ("cn")] (LuaVal.boolean false) [] rfl (by decide) (by decide) (by decide)).trans rfl
  · exact ((C9_attrs_param [LuaVal.str ("cn"), LuaVal.str ("sn")]).2.1
      (by decide) (by decide)).trans rfl

/-- Counterexample to C9 as stated: the element `5` (a number) at
position 1 is not rejected — `lua_isstring` is also true of numbers, so
it is coerced to the name `"5"` instead of raising
`"invalid value #1"`. -/
theorem C9_counterexample :
    get_attrs_param (.tbl [LuaVal.num 5]) = .ok (["5"]) ∧
    get_attrs_param (.tbl [LuaVal.num 5]) ≠ .error ("LuaLDAP: invalid value #1") := by
  refine ⟨rfl, fun h => Except.noConfusion
    ((rfl : get_attrs_param (.tbl [LuaVal.num 5]) = .ok (["5"])).symm.trans h)⟩

/-- C8: the scope option strings `"b"`, `"o"`, `"s"` map to the base,
one-level and subtree scopes, an absent or empty value maps to the
implementation-default scope, and any other leading character is the
fatal `"invalid search scope"` error. -/
theorem C8_scope_parse :
    string2scope none = .ok LDAP_SCOPE_DEFAULT ∧
    string2scope (some ("")) = .ok LDAP_SCOPE_DEFAULT ∧
    string2scope (some ("b")) = .ok LDAP_SCOPE_BASE ∧
    string2scope (some ("o")) = .ok LDAP_SCOPE_ONELEVEL ∧
    string2scope (some ("s")) = .ok LDAP_SCOPE_SUBTREE ∧
    (∀ (c : Char) (cs : List Char), c ≠ 'b' → c ≠ 'o' → c ≠ 's' →
        string2scope (some (String.mk (c :: cs))) =
          .error ("LuaLDAP: invalid search scope " ++ String.mk (c :: cs))) := by
  refine ⟨rfl, rfl, rfl, rfl, rfl, ?_⟩
  intro c cs hb ho hs
  simp [string2scope, hb, ho, hs]

/-- Witness for C8: the scope string `"x"` is rejected. -/
theorem C8_scope_parse_witness :
    string2scope (some ("x")) = .error ("LuaLDAP: invalid search scope x") :=
  (C8_scope_parse.2.2.2.2.2 'x' [] (by decide) (by decide) (by decide)).trans rfl

/-- C10: calling add with a non-table third argument (including an
absent one, i.e. nil) is not an error: the build step is skipped and
the submitted modification array is empty (just the terminator),
exactly as for an empty attribute table. -/
theorem C10_add_nontable (c : conn_data) (dn : String) (v : LuaVal)
    (hopen : c.ld.isSome = true) :
    lualdap_add c dn (.nonTable v) = .ok ⟨1, [], 0, 0⟩ ∧
    lualdap_add c dn (.nonTable v) = lualdap_add c dn (.table []) := by
  have hconn : getconnection c = .ok c := by simp [getconnection, hopen]
  constructor
  · simp [lualdap_add, hconn, A_lastattr, A_init, LUALDAP_MAX_ATTRS]
  · simp [lualdap_add, hconn, A_tab2mod]

/-- Witness for C10: adding with a nil third argument on an open
connection builds the empty modification array. -/
theorem C10_add_nontable_witness :
    lualdap_add ⟨3, some 1⟩ ("dc=example") (.nonTable .nil) = .ok ⟨1, [], 0, 0⟩ ∧
    lualdap_add ⟨3, some 1⟩ ("dc=example") (.nonTable .nil) =
      lualdap_add ⟨3, some 1⟩ ("dc=example") (.table []) :=
  C10_add_nontable ⟨3, some 1⟩ ("dc=example") .nil rfl
